import Mathlib

/-!
Verification of the flowdesk-app core against its specification.

The development shallowly embeds the TypeScript sources:
pure functions become Lean functions over `List Nat` byte strings and
`String` text; Node buffers are byte lists; fallible operations return
`Except`; randomness (salts, IVs, timestamps) is threaded as explicit
parameters.

Cryptographic primitives (PBKDF2, AES-256-GCM) live in the Node standard
library, outside this repository.  They are embedded symbolically
(Dolev-Yao style): a derived key is the record of its derivation inputs,
a GCM ciphertext and tag are records of (key, iv, plaintext), and
decryption succeeds exactly when the key, iv and tag agree with the
ciphertext.  This makes the computational guarantees of PBKDF2
(distinct passphrases give distinct keys) and GCM (forged or mismatched
tags are rejected) structural; everything around the primitives is
translated directly from the source.
-/

/-- Character-list substring test, the embedding of the JavaScript
`String.prototype.includes`. -/
def hasSubstr : List Char → List Char → Bool
  | s@(_ :: t), sub => sub.isPrefixOf s || hasSubstr t sub
  | [], sub => sub.isEmpty

/-- JavaScript `s.includes(sub)` on strings. -/
def strIncludes (s sub : String) : Bool :=
  hasSubstr s.data sub.data

/-- JavaScript `s.startsWith(pre)` on strings. -/
def strStartsWith (s p : String) : Bool :=
  p.data.isPrefixOf s.data

/-- JavaScript `s.endsWith(suf)` on strings. -/
def strEndsWith (s suf : String) : Bool :=
  suf.data.isSuffixOf s.data

/-- ASCII lower-casing of one character, as `String.prototype.toLowerCase`
acts on the ASCII range used by account ids. -/
def lowerChar (c : Char) : Char :=
  if 'A' ≤ c ∧ c ≤ 'Z' then Char.ofNat (c.toNat + 32) else c

/-- JavaScript `s.toLowerCase()`. -/
def strToLower (s : String) : String :=
  String.mk (s.data.map lowerChar)

/-- JavaScript whitespace test used by `String.prototype.trim`. -/
def isWsp (c : Char) : Bool :=
  c = ' ' || c = '\t' || c = '\n' || c = '\r'

/-- JavaScript `s.trim()`. -/
def strTrim (s : String) : String :=
  String.mk (((s.data.dropWhile isWsp).reverse.dropWhile isWsp).reverse)

/-- The id normalisation `accountId.toLowerCase().trim()` used throughout
the store, the cookie cache and the profile vault. -/
def lowerTrim (s : String) : String :=
  strTrim (strToLower s)

namespace Crypto

/-- Symbolic PBKDF2 output: a key is identified by its derivation inputs
(`crypto.pbkdf2Sync(passphrase, salt, iterations, 32, digest)`).  Structural
equality of this record is the ideal-model reading of PBKDF2 being
collision-free across passphrases. -/
structure DerivedKey where
  passphrase : String
  salt : List Nat
  iterations : Nat
  digest : String
deriving DecidableEq

/-- Symbolic AES-256-GCM ciphertext: the record of the encryption inputs. -/
structure SymGcmCiphertext where
  key : DerivedKey
  iv : List Nat
  plaintext : List Nat
deriving DecidableEq

/-- Symbolic AES-256-GCM authentication tag over (key, iv, plaintext). -/
structure SymGcmTag where
  key : DerivedKey
  iv : List Nat
  plaintext : List Nat
deriving DecidableEq

/-- Failure of authenticated decryption, the error Node raises on GCM tag
verification failure and the AuthenticationError of the spec. -/
inductive CryptoError where
  | authenticationError
deriving DecidableEq

/-- Iteration count from src/crypto.ts (`PBKDF2_ITERATIONS = 100000`). -/
def PBKDF2_ITERATIONS : Nat := 100000

/-- Embedding of `deriveKeyFromPassphrase` from src/crypto.ts: PBKDF2 with
100000 iterations, 32-byte output, sha512 digest. -/
def deriveKeyFromPassphrase (passphrase : String) (salt : List Nat) : DerivedKey :=
  { passphrase := passphrase, salt := salt
    iterations := PBKDF2_ITERATIONS, digest := "sha512" }

/-- Embedding of the `EncryptedData` record of src/crypto.ts.  The source
stores each component hex-encoded; hex encoding and decoding are mutually
inverse, so the fields here hold the decoded values directly. -/
structure EncryptedData where
  iv : List Nat
  authTag : SymGcmTag
  ciphertext : SymGcmCiphertext
  salt : List Nat
deriving DecidableEq

/-- Embedding of `encrypt` from src/crypto.ts.  The source draws the IV with
`crypto.randomBytes`; the IV is threaded as an explicit parameter.  The salt
field is set to the empty value, as in the source (`salt: ''`, filled in by
the caller). -/
def encrypt (data : List Nat) (key : DerivedKey) (iv : List Nat) : EncryptedData :=
  { iv := iv
    authTag := { key := key, iv := iv, plaintext := data }
    ciphertext := { key := key, iv := iv, plaintext := data }
    salt := [] }

/-- Core of symbolic GCM decryption: succeeds with the original plaintext
exactly when the supplied key and IV are those the ciphertext was formed
under and the tag authenticates that triple; otherwise it fails closed. -/
def gcmDecryptCore (key : DerivedKey) (iv : List Nat) (tag : SymGcmTag)
    (ct : SymGcmCiphertext) : Except CryptoError (List Nat) :=
  if ct.key = key ∧ ct.iv = iv ∧ tag = { key := key, iv := iv, plaintext := ct.plaintext } then
    Except.ok ct.plaintext
  else
    Except.error CryptoError.authenticationError

/-- Embedding of `decrypt` from src/crypto.ts: AES-256-GCM decryption of an
`EncryptedData` record under a given key. -/
def decrypt (encrypted : EncryptedData) (key : DerivedKey) : Except CryptoError (List Nat) :=
  gcmDecryptCore key encrypted.iv encrypted.authTag encrypted.ciphertext

/-- Embedding of `encryptWithPassphrase` from src/crypto.ts: draws a fresh
salt and IV (threaded as parameters), derives the key, encrypts, and stores
the salt in the result. -/
def encryptWithPassphrase (data : List Nat) (passphrase : String)
    (salt iv : List Nat) : EncryptedData :=
  let key := deriveKeyFromPassphrase passphrase salt
  let e := encrypt data key iv
  { e with salt := salt }

/-- Embedding of `decryptWithPassphrase` from src/crypto.ts: re-derives the
key from the stored salt and decrypts. -/
def decryptWithPassphrase (encrypted : EncryptedData) (passphrase : String) :
    Except CryptoError (List Nat) :=
  let key := deriveKeyFromPassphrase passphrase encrypted.salt
  decrypt encrypted key

end Crypto

namespace ProfileStore

/-- Salt length from src/profiles/store.ts (`SALT_LENGTH = 16`). -/
def SALT_LENGTH : Nat := 16

/-- IV length from src/profiles/store.ts (`IV_LENGTH = 12`). -/
def IV_LENGTH : Nat := 12

/-- Auth-tag length from src/profiles/store.ts (`AUTH_TAG_LENGTH = 16`). -/
def AUTH_TAG_LENGTH : Nat := 16

/-- Embedding of `getKey` from src/profiles/store.ts: PBKDF2 with 100000
iterations, 32-byte output, sha256 digest, over the process passphrase. -/
def getKey (passphrase : String) (salt : List Nat) : Crypto.DerivedKey :=
  { passphrase := passphrase, salt := salt, iterations := 100000, digest := "sha256" }

/-- Parsed profile backup: the cryptographic content of the components
`saveProfileToDisk` writes and `restoreProfileFromDisk` parses. -/
structure ProfileBackup where
  salt : List Nat
  iv : List Nat
  tag : Crypto.SymGcmTag
  encrypted : Crypto.SymGcmCiphertext
deriving DecidableEq

/-- Cryptographic content of the encryption step of `saveProfileToDisk`:
fresh random salt and IV (threaded as parameters), key from `getKey`, and
AES-256-GCM over the zipped profile buffer. -/
def saveProfileEncrypt (zipBuffer : List Nat) (passphrase : String)
    (salt iv : List Nat) : ProfileBackup :=
  let key := getKey passphrase salt
  { salt := salt, iv := iv
    tag := { key := key, iv := iv, plaintext := zipBuffer }
    encrypted := { key := key, iv := iv, plaintext := zipBuffer } }

/-- Decryption step of `restoreProfileFromDisk`: re-derive the key from the
salt parsed out of the backup and run AES-256-GCM decryption. -/
def restoreProfileDecrypt (b : ProfileBackup) (passphrase : String) :
    Except Crypto.CryptoError (List Nat) :=
  Crypto.gcmDecryptCore (getKey passphrase b.salt) b.iv b.tag b.encrypted

/-- Byte layout written by `saveProfileToDisk`:
`Buffer.concat([salt, iv, tag, encrypted])`. -/
def finalBuffer (salt iv tag encrypted : List Nat) : List Nat :=
  salt ++ iv ++ tag ++ encrypted

/-- Slice `fileData.subarray(0, SALT_LENGTH)` of `restoreProfileFromDisk`. -/
def sliceSalt (fileData : List Nat) : List Nat :=
  fileData.take SALT_LENGTH

/-- Slice `fileData.subarray(SALT_LENGTH, SALT_LENGTH + IV_LENGTH)`. -/
def sliceIv (fileData : List Nat) : List Nat :=
  (fileData.drop SALT_LENGTH).take IV_LENGTH

/-- Slice `fileData.subarray(SALT_LENGTH + IV_LENGTH, SALT_LENGTH + IV_LENGTH + AUTH_TAG_LENGTH)`. -/
def sliceTag (fileData : List Nat) : List Nat :=
  (fileData.drop (SALT_LENGTH + IV_LENGTH)).take AUTH_TAG_LENGTH

/-- Slice `fileData.subarray(SALT_LENGTH + IV_LENGTH + AUTH_TAG_LENGTH)`. -/
def sliceCiphertext (fileData : List Nat) : List Nat :=
  fileData.drop (SALT_LENGTH + IV_LENGTH + AUTH_TAG_LENGTH)

end ProfileStore

/-- C1: for every plaintext buffer, passphrase, and any salt and IV drawn
by `encryptWithPassphrase`, `decryptWithPassphrase` with the same
passphrase (PBKDF2 key derivation followed by AES-256-GCM) returns exactly
the original plaintext. -/
theorem C1_passphrase_roundtrip (m : List Nat) (p : String) (salt iv : List Nat) :
    Crypto.decryptWithPassphrase (Crypto.encryptWithPassphrase m p salt iv) p =
      Except.ok m := by
  simp [Crypto.decryptWithPassphrase, Crypto.encryptWithPassphrase,
    Crypto.decrypt, Crypto.encrypt, Crypto.gcmDecryptCore]

/-- Helper: the record computed by `encryptWithPassphrase`, with the lets
of the definition expanded. -/
theorem encryptWithPassphrase_eq (m : List Nat) (p : String) (salt iv : List Nat) :
    Crypto.encryptWithPassphrase m p salt iv =
      { iv := iv
        authTag := { key := Crypto.deriveKeyFromPassphrase p salt, iv := iv, plaintext := m }
        ciphertext := { key := Crypto.deriveKeyFromPassphrase p salt, iv := iv, plaintext := m }
        salt := salt } := rfl

/-- Helper: symbolic GCM decryption is all-or-nothing — it returns the
plaintext embedded in the ciphertext or fails with an authentication
error. -/
theorem gcmDecryptCore_ok_or_error (key : Crypto.DerivedKey) (iv : List Nat)
    (tag : Crypto.SymGcmTag) (ct : Crypto.SymGcmCiphertext) :
    Crypto.gcmDecryptCore key iv tag ct = Except.ok ct.plaintext
      ∨ Crypto.gcmDecryptCore key iv tag ct =
          Except.error Crypto.CryptoError.authenticationError := by
  unfold Crypto.gcmDecryptCore
  split
  · exact Or.inl rfl
  · exact Or.inr rfl

/-- C2: decrypting the passphrase-encryption of any plaintext with a
different passphrase fails with an authentication error, both in the vault
path (decryptWithPassphrase) and in the profile-restore path; tampering
with the auth tag or the ciphertext likewise fails; and decryption never
returns anything other than the exact original plaintext or an error. -/
theorem C2_wrong_passphrase_auth_error (m : List Nat) (p q : String)
    (salt iv : List Nat) (hpq : q ≠ p) :
    Crypto.decryptWithPassphrase (Crypto.encryptWithPassphrase m p salt iv) q =
      Except.error Crypto.CryptoError.authenticationError
  ∧ ProfileStore.restoreProfileDecrypt (ProfileStore.saveProfileEncrypt m p salt iv) q =
      Except.error Crypto.CryptoError.authenticationError
  ∧ (∀ t, t ≠ (Crypto.encryptWithPassphrase m p salt iv).authTag →
      Crypto.decryptWithPassphrase
          { Crypto.encryptWithPassphrase m p salt iv with authTag := t } p =
        Except.error Crypto.CryptoError.authenticationError)
  ∧ (∀ ct, ct ≠ (Crypto.encryptWithPassphrase m p salt iv).ciphertext →
      Crypto.decryptWithPassphrase
          { Crypto.encryptWithPassphrase m p salt iv with ciphertext := ct } p =
        Except.error Crypto.CryptoError.authenticationError)
  ∧ (∀ r, Crypto.decryptWithPassphrase (Crypto.encryptWithPassphrase m p salt iv) r =
        Except.ok m
      ∨ Crypto.decryptWithPassphrase (Crypto.encryptWithPassphrase m p salt iv) r =
        Except.error Crypto.CryptoError.authenticationError) := by
  have hkey : ¬ Crypto.deriveKeyFromPassphrase p salt = Crypto.deriveKeyFromPassphrase q salt :=
    fun h => hpq (congrArg Crypto.DerivedKey.passphrase h).symm
  have hkey2 : ¬ ProfileStore.getKey p salt = ProfileStore.getKey q salt :=
    fun h => hpq (congrArg Crypto.DerivedKey.passphrase h).symm
  refine ⟨?_, ?_, ?_, ?_, ?_⟩
  · simp [Crypto.decryptWithPassphrase, Crypto.encryptWithPassphrase, Crypto.decrypt,
      Crypto.encrypt, Crypto.gcmDecryptCore, hkey]
  · simp [ProfileStore.restoreProfileDecrypt, ProfileStore.saveProfileEncrypt,
      Crypto.gcmDecryptCore, hkey2]
  · intro t ht
    rw [encryptWithPassphrase_eq] at ht ⊢
    simp [Crypto.decryptWithPassphrase, Crypto.decrypt, Crypto.gcmDecryptCore, ht]
  · intro ct hct
    obtain ⟨ck, civ, cm⟩ := ct
    rw [encryptWithPassphrase_eq] at hct ⊢
    simp only [Crypto.decryptWithPassphrase, Crypto.decrypt, Crypto.gcmDecryptCore]
    rw [if_neg]
    rintro ⟨h1, h2, h3⟩
    apply hct
    subst h1
    subst h2
    injection h3 with hk hiv hm
    rw [hm]
  · intro r
    rcases gcmDecryptCore_ok_or_error
        (Crypto.deriveKeyFromPassphrase r (Crypto.encryptWithPassphrase m p salt iv).salt)
        (Crypto.encryptWithPassphrase m p salt iv).iv
        (Crypto.encryptWithPassphrase m p salt iv).authTag
        (Crypto.encryptWithPassphrase m p salt iv).ciphertext with h | h
    · left
      simpa [Crypto.decryptWithPassphrase, Crypto.decrypt, Crypto.encryptWithPassphrase,
        Crypto.encrypt] using h
    · right
      simpa [Crypto.decryptWithPassphrase, Crypto.decrypt, Crypto.encryptWithPassphrase,
        Crypto.encrypt] using h

/-- Witness for C2: concrete plaintext, passphrases and random inputs. -/
theorem C2_wrong_passphrase_auth_error_witness :
    ("b" : String) ≠ "a"
  ∧ Crypto.decryptWithPassphrase (Crypto.encryptWithPassphrase [1, 2, 3] "a" [0] [7]) "b" =
      Except.error Crypto.CryptoError.authenticationError
  ∧ ProfileStore.restoreProfileDecrypt
        (ProfileStore.saveProfileEncrypt [1, 2, 3] "a" [0] [7]) "b" =
      Except.error Crypto.CryptoError.authenticationError :=
  ⟨by decide,
   (C2_wrong_passphrase_auth_error [1, 2, 3] "a" "b" [0] [7] (by decide)).1,
   (C2_wrong_passphrase_auth_error [1, 2, 3] "a" "b" [0] [7] (by decide)).2.1⟩

/-- C3: the backup buffer written by saveProfileToDisk is
salt ++ iv ++ tag ++ ciphertext with salt 16 bytes, iv 12 bytes and tag 16
bytes, so salt occupies [0,16), iv [16,28), tag [28,44) and the ciphertext
runs from offset 44; the slices taken by restoreProfileFromDisk at exactly
those offsets recover each component. -/
theorem C3_backup_layout (salt iv tag ct : List Nat)
    (hs : salt.length = 16) (hi : iv.length = 12) (ht : tag.length = 16) :
    ProfileStore.sliceSalt (ProfileStore.finalBuffer salt iv tag ct) = salt
  ∧ ProfileStore.sliceIv (ProfileStore.finalBuffer salt iv tag ct) = iv
  ∧ ProfileStore.sliceTag (ProfileStore.finalBuffer salt iv tag ct) = tag
  ∧ ProfileStore.sliceCiphertext (ProfileStore.finalBuffer salt iv tag ct) = ct
  ∧ ProfileStore.SALT_LENGTH = 16
  ∧ ProfileStore.SALT_LENGTH + ProfileStore.IV_LENGTH = 28
  ∧ ProfileStore.SALT_LENGTH + ProfileStore.IV_LENGTH + ProfileStore.AUTH_TAG_LENGTH = 44 := by
  have hbuf : ProfileStore.finalBuffer salt iv tag ct = salt ++ (iv ++ (tag ++ ct)) := by
    simp [ProfileStore.finalBuffer, List.append_assoc]
  have hdrop16 : (salt ++ (iv ++ (tag ++ ct))).drop 16 = iv ++ (tag ++ ct) :=
    List.drop_left' hs
  have hdrop28 : (salt ++ (iv ++ (tag ++ ct))).drop 28 = tag ++ ct := by
    have : (28 : Nat) = 16 + 12 := rfl
    rw [this, ← List.drop_drop, hdrop16, List.drop_left' hi]
  have hdrop44 : (salt ++ (iv ++ (tag ++ ct))).drop 44 = ct := by
    have : (44 : Nat) = 28 + 16 := rfl
    rw [this, ← List.drop_drop, hdrop28, List.drop_left' ht]
  refine ⟨?_, ?_, ?_, ?_, rfl, rfl, rfl⟩
  · show (ProfileStore.finalBuffer salt iv tag ct).take 16 = salt
    rw [hbuf, List.take_left' hs]
  · show ((ProfileStore.finalBuffer salt iv tag ct).drop 16).take 12 = iv
    rw [hbuf, hdrop16, List.take_left' hi]
  · show ((ProfileStore.finalBuffer salt iv tag ct).drop 28).take 16 = tag
    rw [hbuf, hdrop28, List.take_left' ht]
  · show (ProfileStore.finalBuffer salt iv tag ct).drop 44 = ct
    rw [hbuf, hdrop44]

/-- Witness for C3: concrete component lists of the required lengths. -/
theorem C3_backup_layout_witness :
    (List.replicate 16 (1 : Nat)).length = 16
  ∧ ProfileStore.sliceSalt
      (ProfileStore.finalBuffer (List.replicate 16 1) (List.replicate 12 2)
        (List.replicate 16 3) [9, 9]) = List.replicate 16 1 :=
  ⟨by decide,
   (C3_backup_layout (List.replicate 16 1) (List.replicate 12 2) (List.replicate 16 3)
     [9, 9] (by decide) (by decide) (by decide)).1⟩

namespace Accounts

/-- Platform union type from src/accounts.ts. -/
inductive Platform where
  | flipkart
  | shopsy
deriving DecidableEq

/-- AccountStatus union type from src/accounts.ts. -/
inductive AccountStatus where
  | New
  | Healthy
  | NeedsRefresh
  | OTPRequired
  | Locked
  | Error
deriving DecidableEq

/-- Mailbox credential record from src/accounts.ts (`emailConfig`). -/
structure EmailConfig where
  user : String
  passEncrypted : String
  host : String
deriving DecidableEq

/-- Account record from src/accounts.ts.  Optional fields are `Option`. -/
structure Account where
  id : String
  platform : Platform
  loginType : String
  identifier : String
  status : AccountStatus
  assignedTo : Option String
  lastLoginAt : Option String
  lastValidateAt : Option String
  errorCode : Option String
  createdAt : String
  updatedAt : String
  emailConfig : Option EmailConfig
deriving DecidableEq

/-- The argument type of `upsertAccount`:
`Partial<Account> & {id, platform}`.  A field holding `some v` is present
in the partial object (and is spread over the existing record); `none`
means the property is absent. -/
structure PartialAccount where
  id : String
  platform : Platform
  loginType : Option String := none
  identifier : Option String := none
  status : Option AccountStatus := none
  assignedTo : Option String := none
  lastLoginAt : Option String := none
  lastValidateAt : Option String := none
  errorCode : Option String := none
  createdAt : Option String := none
  updatedAt : Option String := none
  emailConfig : Option EmailConfig := none
deriving DecidableEq

/-- The lookup predicate of `upsertAccount`, `updateAccountStatus`,
`getAccount` and `deleteAccount`: `a.id.toLowerCase() === id` where `id`
is the lower-cased and trimmed input.  Note the stored id is lower-cased
but not trimmed before comparison, exactly as in the source. -/
def idMatches (normId : String) (a : Account) : Bool :=
  strToLower a.id = normId

/-- Spread semantics for an `Option`-typed field:
`{...existing, ...account}` takes the partial object value when the
property is present, the existing value otherwise. -/
def mergeOpt : Option α → Option α → Option α
  | some v, _ => some v
  | none, old => old

/-- Update branch of `upsertAccount`:
`{...existing, ...account, updatedAt: now}`.  Every property present in
the partial overrides the existing record, including the raw
(non-normalised) `id`; `updatedAt` is then stamped with `now`. -/
def mergeAccount (existing : Account) (p : PartialAccount) (now : String) : Account :=
  { id := p.id
    platform := p.platform
    loginType := p.loginType.getD existing.loginType
    identifier := p.identifier.getD existing.identifier
    status := p.status.getD existing.status
    assignedTo := mergeOpt p.assignedTo existing.assignedTo
    lastLoginAt := mergeOpt p.lastLoginAt existing.lastLoginAt
    lastValidateAt := mergeOpt p.lastValidateAt existing.lastValidateAt
    errorCode := mergeOpt p.errorCode existing.errorCode
    createdAt := p.createdAt.getD existing.createdAt
    updatedAt := now
    emailConfig := mergeOpt p.emailConfig existing.emailConfig }

/-- Create branch of `upsertAccount`:
`{loginType: 'mobile', identifier: '', status: 'New', createdAt: now,
updatedAt: now, ...account, id}`.  Defaults are overridden by properties
present in the partial, and the id is forced to the normalised form
last. -/
def newAccountFromPartial (p : PartialAccount) (normId : String) (now : String) : Account :=
  { id := normId
    platform := p.platform
    loginType := p.loginType.getD "mobile"
    identifier := p.identifier.getD ""
    status := p.status.getD AccountStatus.New
    assignedTo := p.assignedTo
    lastLoginAt := p.lastLoginAt
    lastValidateAt := p.lastValidateAt
    errorCode := p.errorCode
    createdAt := p.createdAt.getD now
    updatedAt := p.updatedAt.getD now
    emailConfig := p.emailConfig }

/-- In-place assignment `data.accounts[existingIndex] = updated` where
`existingIndex` is the first index matched by `idMatches`. -/
def replaceFirst (accounts : List Account) (normId : String) (updated : Account) : List Account :=
  match accounts with
  | [] => []
  | a :: rest =>
      if idMatches normId a then updated :: rest
      else a :: replaceFirst rest normId updated

/-- Embedding of `upsertAccount` from src/accounts.ts, returning the
record handed back to the caller and the mutated account list.  The
timestamp `new Date().toISOString()` is threaded as `now`. -/
def upsertAccount (accounts : List Account) (p : PartialAccount) (now : String) :
    Account × List Account :=
  let id := lowerTrim p.id
  match accounts.find? (idMatches id) with
  | some existing =>
      let updated := mergeAccount existing p now
      (updated, replaceFirst accounts id updated)
  | none =>
      let newAccount := newAccountFromPartial p id now
      (newAccount, accounts ++ [newAccount])

/-- Embedding of `updateAccountStatus` from src/accounts.ts. -/
def updateAccountStatus (accounts : List Account) (accountId : String)
    (status : AccountStatus) (errorCode : Option String) (now : String) : List Account :=
  let id := lowerTrim accountId
  match accounts.find? (idMatches id) with
  | some account =>
      let a1 := { account with status := status, updatedAt := now }
      let a2 :=
        if status = AccountStatus.Healthy then
          { a1 with lastValidateAt := some now, errorCode := none }
        else
          match errorCode with
          | some e => { a1 with errorCode := some e }
          | none => a1
      replaceFirst accounts id a2
  | none => accounts

/-- First-match removal, the `splice(index, 1)` of `deleteAccount`. -/
def removeFirst (accounts : List Account) (normId : String) : List Account :=
  match accounts with
  | [] => []
  | a :: rest => if idMatches normId a then rest else a :: removeFirst rest normId

/-- Embedding of `deleteAccount` from src/accounts.ts: removes the first
record with a matching id and reports whether one was found. -/
def deleteAccount (accounts : List Account) (accountId : String) : Bool × List Account :=
  let id := lowerTrim accountId
  if accounts.any (idMatches id) then (true, removeFirst accounts id)
  else (false, accounts)

/-- Promise `.then` over settled outcomes: a rejected promise skips the
handler and stays rejected. -/
def promiseThen (p : Except String α) (f : α → Except String β) : Except String β :=
  match p with
  | Except.ok a => f a
  | Except.error e => Except.error e

/-- Promise `.catch` over settled outcomes: a rejection is handled and the
resulting promise resolves. -/
def promiseCatch (p : Except String α) (h : String → α) : Except String α :=
  match p with
  | Except.ok a => Except.ok a
  | Except.error e => Except.ok (h e)

/-- Embedding of the queue update in `saveAccounts` from src/accounts.ts:
`saveQueue = saveQueue.then(operation).then(push).catch(log)`.
`prevQueue` is the settled outcome of the queue before this call,
`writeOutcome` the outcome of the temp-file write and atomic rename; the
push handler is fire-and-forget and always resolves.  The value returned
to the caller of `saveAccounts` is this settled outcome. -/
def saveAccountsQueue (prevQueue writeOutcome : Except String Unit) : Except String Unit :=
  promiseCatch
    (promiseThen (promiseThen prevQueue (fun _ => writeOutcome)) (fun _ => Except.ok ()))
    (fun _ => ())

/-- The caller-visible outcome of `upsertAccount`: it awaits
`saveAccounts(data)` and then returns the upserted record. -/
def upsertAccountResult (accounts : List Account) (p : PartialAccount) (now : String)
    (prevQueue writeOutcome : Except String Unit) : Except String Account :=
  promiseThen (saveAccountsQueue prevQueue writeOutcome)
    (fun _ => Except.ok (upsertAccount accounts p now).1)

/-- The caller-visible outcome of `updateAccountStatus` when the account
exists: it awaits `saveAccounts(data)` and returns nothing. -/
def updateAccountStatusResult (prevQueue writeOutcome : Except String Unit) :
    Except String Unit :=
  promiseThen (saveAccountsQueue prevQueue writeOutcome) (fun _ => Except.ok ())

/-- The caller-visible outcome of `deleteAccount`: when a record matched,
it awaits `saveAccounts(data)` and returns true; otherwise false with no
write. -/
def deleteAccountResult (accounts : List Account) (accountId : String)
    (prevQueue writeOutcome : Except String Unit) : Except String Bool :=
  if (deleteAccount accounts accountId).1 then
    promiseThen (saveAccountsQueue prevQueue writeOutcome) (fun _ => Except.ok true)
  else
    Except.ok false

/-- Checks that every stored id is in the normalised (lower-cased and
trimmed) form. -/
def allIdsNormalized (accounts : List Account) : Bool :=
  accounts.all (fun a => a.id = lowerTrim a.id)

/-- The stored ids in normalised form. -/
def normIds (accounts : List Account) : List String :=
  accounts.map (fun a => lowerTrim a.id)

end Accounts

/-- C6 counterexample: on an empty store, an upsert whose partial carries
an `updatedAt` property creates the record with that carried value, not
with the current time — the create branch spreads the partial after the
`updatedAt: now` default, so the claim that updatedAt is always stamped
with the current time fails. -/
theorem C6_upsert_counterexample :
    (Accounts.upsertAccount []
        { id := "x", platform := Accounts.Platform.flipkart
          updatedAt := some "1999-01-01T00:00:00Z" }
        "2026-10-12T00:00:00Z").1.updatedAt ≠ "2026-10-12T00:00:00Z" := by
  decide

/-- C6 (amended): an upsert whose normalised id matches an existing record
(first match of the case-insensitive lookup) returns that record
field-merged with the partial — fields absent from the partial retain
their previous values, present fields override — and stamps updatedAt with
the current time; when nothing matches, a new record is created whose
status defaults to New, whose id is the normalised id, and whose createdAt
and updatedAt default to the current time unless the partial carries those
properties, in which case the carried values win. -/
theorem C6_upsert_merge (accounts : List Accounts.Account)
    (p : Accounts.PartialAccount) (now : String) :
    (∀ existing, accounts.find? (Accounts.idMatches (lowerTrim p.id)) = some existing →
        (Accounts.upsertAccount accounts p now).1 = Accounts.mergeAccount existing p now)
  ∧ (accounts.find? (Accounts.idMatches (lowerTrim p.id)) = none →
        (Accounts.upsertAccount accounts p now).1 =
            Accounts.newAccountFromPartial p (lowerTrim p.id) now
      ∧ (Accounts.upsertAccount accounts p now).2 =
            accounts ++ [Accounts.newAccountFromPartial p (lowerTrim p.id) now])
  ∧ (∀ existing,
        (Accounts.mergeAccount existing p now).updatedAt = now
      ∧ (p.loginType = none →
          (Accounts.mergeAccount existing p now).loginType = existing.loginType)
      ∧ (∀ v, p.loginType = some v → (Accounts.mergeAccount existing p now).loginType = v)
      ∧ (p.identifier = none →
          (Accounts.mergeAccount existing p now).identifier = existing.identifier)
      ∧ (∀ v, p.identifier = some v → (Accounts.mergeAccount existing p now).identifier = v)
      ∧ (p.status = none → (Accounts.mergeAccount existing p now).status = existing.status)
      ∧ (∀ st, p.status = some st → (Accounts.mergeAccount existing p now).status = st)
      ∧ (p.assignedTo = none →
          (Accounts.mergeAccount existing p now).assignedTo = existing.assignedTo)
      ∧ (∀ v, p.assignedTo = some v →
          (Accounts.mergeAccount existing p now).assignedTo = some v)
      ∧ (p.lastLoginAt = none →
          (Accounts.mergeAccount existing p now).lastLoginAt = existing.lastLoginAt)
      ∧ (p.lastValidateAt = none →
          (Accounts.mergeAccount existing p now).lastValidateAt = existing.lastValidateAt)
      ∧ (p.errorCode = none →
          (Accounts.mergeAccount existing p now).errorCode = existing.errorCode)
      ∧ (p.emailConfig = none →
          (Accounts.mergeAccount existing p now).emailConfig = existing.emailConfig)
      ∧ (p.createdAt = none →
          (Accounts.mergeAccount existing p now).createdAt = existing.createdAt)
      ∧ (Accounts.mergeAccount existing p now).platform = p.platform)
  ∧ ((p.status = none →
        (Accounts.newAccountFromPartial p (lowerTrim p.id) now).status =
          Accounts.AccountStatus.New)
      ∧ (∀ st, p.status = some st →
          (Accounts.newAccountFromPartial p (lowerTrim p.id) now).status = st)
      ∧ (p.updatedAt = none →
          (Accounts.newAccountFromPartial p (lowerTrim p.id) now).updatedAt = now)
      ∧ (p.createdAt = none →
          (Accounts.newAccountFromPartial p (lowerTrim p.id) now).createdAt = now)
      ∧ (p.loginType = none →
          (Accounts.newAccountFromPartial p (lowerTrim p.id) now).loginType = "mobile")
      ∧ (p.identifier = none →
          (Accounts.newAccountFromPartial p (lowerTrim p.id) now).identifier = "")
      ∧ (Accounts.newAccountFromPartial p (lowerTrim p.id) now).id = lowerTrim p.id) := by
  refine ⟨?_, ?_, ?_, ?_⟩
  · intro existing hfind
    simp [Accounts.upsertAccount, hfind]
  · intro hfind
    constructor
    · simp [Accounts.upsertAccount, hfind]
    · simp [Accounts.upsertAccount, hfind]
  · intro existing
    refine ⟨rfl, ?_, ?_, ?_, ?_, ?_, ?_, ?_, ?_, ?_, ?_, ?_, ?_, ?_, rfl⟩
    all_goals first
      | (intro h; simp [Accounts.mergeAccount, Accounts.mergeOpt, h])
      | (intro v h; simp [Accounts.mergeAccount, Accounts.mergeOpt, h])
  · refine ⟨?_, ?_, ?_, ?_, ?_, ?_, rfl⟩
    all_goals first
      | (intro h; simp [Accounts.newAccountFromPartial, h])
      | (intro v h; simp [Accounts.newAccountFromPartial, h])

/-- Concrete stored account used by the C6 witness. -/
def aW : Accounts.Account :=
  { id := "foo", platform := Accounts.Platform.flipkart, loginType := "mobile"
    identifier := "999", status := Accounts.AccountStatus.Healthy, assignedTo := none
    lastLoginAt := none, lastValidateAt := none, errorCode := none
    createdAt := "t0", updatedAt := "t0", emailConfig := none }

/-- Concrete partial matching `aW` used by the C6 witness. -/
def pW : Accounts.PartialAccount :=
  { id := "foo", platform := Accounts.Platform.flipkart
    status := some Accounts.AccountStatus.Locked }

/-- Concrete partial for the create branch of the C6 witness. -/
def pY : Accounts.PartialAccount :=
  { id := "y", platform := Accounts.Platform.shopsy }

/-- Witness for C6 (amended): both branches realised on concrete stores,
with the lookup hypotheses discharged by evaluation. -/
theorem C6_upsert_merge_witness :
    (Accounts.upsertAccount [aW] pW "t2").1 = Accounts.mergeAccount aW pW "t2"
  ∧ (Accounts.upsertAccount [] pY "t1").1 =
      Accounts.newAccountFromPartial pY (lowerTrim "y") "t1" :=
  ⟨(C6_upsert_merge [aW] pW "t2").1 aW (by decide),
   ((C6_upsert_merge [] pY "t1").2.1 rfl).1⟩

/-- C8: evaluation of the store at a failing input.  Starting from the
empty store, upserting id "foo", then id " FOO ", then id "foo" leaves
the store with a record whose id is the raw string " FOO " (the update
branch spreads the partial raw id over the normalised one) and then with
two records whose normalised ids are both "foo" (the lookup lower-cases
but does not trim the stored id, so " FOO " no longer matches).  Both
halves of the claimed invariant — ids stay normalised and at most one
record per case-insensitive id — fail. -/
theorem C8_id_normalization_bug :
    Accounts.allIdsNormalized
        (Accounts.upsertAccount
          (Accounts.upsertAccount [] { id := "foo", platform := Accounts.Platform.flipkart } "t1").2
          { id := " FOO ", platform := Accounts.Platform.flipkart } "t2").2 = false
  ∧ Accounts.normIds
        (Accounts.upsertAccount
          (Accounts.upsertAccount
            (Accounts.upsertAccount [] { id := "foo", platform := Accounts.Platform.flipkart } "t1").2
            { id := " FOO ", platform := Accounts.Platform.flipkart } "t2").2
          { id := "foo", platform := Accounts.Platform.flipkart } "t3").2 = ["foo", "foo"] := by
  decide

/-- C10: the promise returned by saveAccounts always resolves — the queue
chain ends in a catch that swallows the write failure — so upsert, status
update and delete all report success to their callers for every prior
queue state and every outcome of the temp-file write and atomic rename. -/
theorem C10_save_always_resolves (prevQueue writeOutcome : Except String Unit)
    (accounts : List Accounts.Account) (p : Accounts.PartialAccount)
    (accountId now : String) :
    Accounts.saveAccountsQueue prevQueue writeOutcome = Except.ok ()
  ∧ Accounts.upsertAccountResult accounts p now prevQueue writeOutcome =
      Except.ok (Accounts.upsertAccount accounts p now).1
  ∧ Accounts.updateAccountStatusResult prevQueue writeOutcome = Except.ok ()
  ∧ Accounts.deleteAccountResult accounts accountId prevQueue writeOutcome =
      Except.ok (Accounts.deleteAccount accounts accountId).1 := by
  have hq : Accounts.saveAccountsQueue prevQueue writeOutcome = Except.ok () := by
    cases prevQueue <;> cases writeOutcome <;> rfl
  refine ⟨hq, ?_, ?_, ?_⟩
  · simp [Accounts.upsertAccountResult, hq, Accounts.promiseThen]
  · simp [Accounts.updateAccountStatusResult, hq, Accounts.promiseThen]
  · by_cases hfound : (Accounts.deleteAccount accounts accountId).1
    · simp [Accounts.deleteAccountResult, hfound, hq, Accounts.promiseThen]
    · simp [Accounts.deleteAccountResult, hfound, Accounts.promiseThen]

namespace Cookies

/-- Cookie record as handled by src/cookies.ts: the playwright attribute
set plus the `hostOnly` and `session` flags found in imported cookie
JSON.  `hostOnly` and `session` are `Option` because the adapter deletes
those properties; `expires` is an integer timestamp. -/
structure Cookie where
  name : String
  value : String
  domain : String
  path : String
  expires : Int
  httpOnly : Bool
  secure : Bool
  sameSite : String
  hostOnly : Option Bool
  session : Option Bool
deriving DecidableEq

/-- Body of the map in `adaptCookiesForShopsy`: copy the cookie, delete
`hostOnly` and `session`, and rewrite the domain to `.shopsy.in` when the
domain contains the substring `flipkart.com`. -/
def adaptCookie (c : Cookie) : Cookie :=
  let c1 := { c with hostOnly := none, session := none }
  if strIncludes c.domain "flipkart.com" then { c1 with domain := ".shopsy.in" } else c1

/-- Embedding of `adaptCookiesForShopsy` from src/cookies.ts. -/
def adaptCookiesForShopsy (cookies : List Cookie) : List Cookie :=
  cookies.map adaptCookie

end Cookies

/-- Cookie with a domain unrelated to flipkart.com carrying a session
flag, used by the C5 counterexample. -/
def cookieUnrelated : Cookies.Cookie :=
  { name := "sid", value := "1", domain := "example.com", path := "/", expires := 0
    httpOnly := false, secure := false, sameSite := "Lax"
    hostOnly := none, session := some true }

/-- Cookie whose domain contains flipkart.com as a substring without
suffix-matching it, used by the C5 counterexample. -/
def cookieTrickDomain : Cookies.Cookie :=
  { name := "sid", value := "1", domain := "flipkart.com.evil.example", path := "/"
    expires := 0, httpOnly := false, secure := false, sameSite := "Lax"
    hostOnly := none, session := none }

/-- C5 counterexample: a cookie outside the flipkart.com domain is not
returned unchanged — its session flag is stripped — and a domain that
merely contains flipkart.com as a substring (without suffix-matching it)
is still rewritten to .shopsy.in. -/
theorem C5_adapt_counterexample :
    Cookies.adaptCookiesForShopsy [cookieUnrelated] ≠ [cookieUnrelated]
  ∧ strEndsWith cookieTrickDomain.domain "flipkart.com" = false
  ∧ (Cookies.adaptCookiesForShopsy [cookieTrickDomain]).map Cookies.Cookie.domain =
      [".shopsy.in"] := by
  decide

/-- C5 (amended): adaptation maps each cookie position-wise; a cookie
whose domain contains the substring flipkart.com has its domain rewritten
to .shopsy.in, every cookie (matching or not) has its session and
hostOnly flags stripped, and every other attribute of every cookie is
passed through unchanged. -/
theorem C5_adapt_amended (cookies : List Cookies.Cookie) (i : Nat)
    (hi : i < (Cookies.adaptCookiesForShopsy cookies).length)
    (hj : i < cookies.length) :
    (Cookies.adaptCookiesForShopsy cookies).length = cookies.length
  ∧ ((Cookies.adaptCookiesForShopsy cookies)[i]).domain =
      (if strIncludes (cookies[i]).domain "flipkart.com" then ".shopsy.in"
       else (cookies[i]).domain)
  ∧ ((Cookies.adaptCookiesForShopsy cookies)[i]).hostOnly = none
  ∧ ((Cookies.adaptCookiesForShopsy cookies)[i]).session = none
  ∧ ((Cookies.adaptCookiesForShopsy cookies)[i]).name = (cookies[i]).name
  ∧ ((Cookies.adaptCookiesForShopsy cookies)[i]).value = (cookies[i]).value
  ∧ ((Cookies.adaptCookiesForShopsy cookies)[i]).path = (cookies[i]).path
  ∧ ((Cookies.adaptCookiesForShopsy cookies)[i]).expires = (cookies[i]).expires
  ∧ ((Cookies.adaptCookiesForShopsy cookies)[i]).httpOnly = (cookies[i]).httpOnly
  ∧ ((Cookies.adaptCookiesForShopsy cookies)[i]).secure = (cookies[i]).secure
  ∧ ((Cookies.adaptCookiesForShopsy cookies)[i]).sameSite = (cookies[i]).sameSite := by
  refine ⟨by simp [Cookies.adaptCookiesForShopsy], ?_, ?_, ?_, ?_, ?_, ?_, ?_, ?_, ?_, ?_⟩
  all_goals
    simp only [Cookies.adaptCookiesForShopsy, List.getElem_map, Cookies.adaptCookie]
    by_cases h : strIncludes (cookies[i]).domain "flipkart.com" <;> simp [h]

/-- Witness for C5 (amended): the unrelated-domain cookie at index 0, with
both index bounds discharged by evaluation. -/
theorem C5_adapt_amended_witness :
    ((Cookies.adaptCookiesForShopsy [cookieUnrelated]).get
        ⟨0, by simp [Cookies.adaptCookiesForShopsy]⟩).session = none :=
  (C5_adapt_amended [cookieUnrelated] 0
      (by simp [Cookies.adaptCookiesForShopsy]) (by simp)).2.2.2.1

namespace BrowserManager

/-- Registry key registered by loginFlipkart:
`${accountId}-flipkart-login`. -/
def registerKeyFlipkartLogin (accountId : String) : String :=
  accountId ++ "-flipkart-login"

/-- Registry key registered by loginShopsy: `${accountId}-shopsy-login`. -/
def registerKeyShopsyLogin (accountId : String) : String :=
  accountId ++ "-shopsy-login"

/-- Registry key registered by checkAccountHealth for its own probe
context: `${platform}-${accountId}-health`. -/
def registerKeyHealth (platform accountId : String) : String :=
  platform ++ "-" ++ accountId ++ "-health"

/-- Embedding of `BrowserManager.isActive`: true when any registered key
starts with the given string. -/
def isActive (keys : List String) (idPre : String) : Bool :=
  keys.any (fun k => strStartsWith k idPre)

end BrowserManager

namespace Health

/-- The live-session test at the top of `checkAccountHealth`:
`browsers.isActive('flipkart-' + accountId) ||
browsers.isActive('shopsy-' + accountId)`. -/
def healthSessionPreCheck (keys : List String) (accountId : String) : Bool :=
  BrowserManager.isActive keys ("flipkart-" ++ accountId)
    || BrowserManager.isActive keys ("shopsy-" ++ accountId)

/-- Result record returned by `checkAccountHealth`. -/
structure HealthResult where
  status : String
  message : String
deriving DecidableEq

/-- The early return of `checkAccountHealth`: the Healthy result when the
live-session test fires, `none` when the function goes on to launch the
headless probe. -/
def checkAccountHealthEarly (keys : List String) (accountId : String) : Option HealthResult :=
  if healthSessionPreCheck keys accountId then
    some { status := "Healthy", message := "Browser session currently active" }
  else
    none

end Health

/-- C4: evaluation of the health check at a failing input.  With a live
session registered by either login flow (keys `a1-flipkart-login` or
`a1-shopsy-login`), the pre-check of checkAccountHealth does not fire —
the prefixes it queries (`flipkart-a1`, `shopsy-a1`) never match the key
convention the login flows register under — so the function proceeds to
launch a probe instead of returning Healthy.  Only the keys the health
check itself registers (`flipkart-a1-health`) match its own prefixes. -/
theorem C4_health_live_session_not_detected :
    Health.checkAccountHealthEarly [BrowserManager.registerKeyFlipkartLogin "a1"] "a1" = none
  ∧ Health.checkAccountHealthEarly [BrowserManager.registerKeyShopsyLogin "a1"] "a1" = none
  ∧ Health.checkAccountHealthEarly [BrowserManager.registerKeyHealth "flipkart" "a1"] "a1" =
      some { status := "Healthy", message := "Browser session currently active" } := by
  decide

namespace Login

/-- The test in the catch handler of `loginFlipkart`:
`err.message.includes('closed') ||
err.message.includes('browser has been closed')`, the message text
playwright produces when the operator closes the browser window. -/
def isBrowserClosedMessage (msg : String) : Bool :=
  strIncludes msg "closed" || strIncludes msg "browser has been closed"

/-- What a login flow hands its caller: a returned result record or a
propagated exception. -/
inductive FlowResult where
  | returned (status : String) (message : String)
  | thrown (msg : String)
deriving DecidableEq

/-- Observable effect of a catch handler: the caller-visible result and
the `updateAccountStatus` call it performs, if any. -/
structure CatchEffect where
  result : FlowResult
  statusUpdate : Option (Accounts.AccountStatus × Option String)
deriving DecidableEq

/-- Embedding of the catch handler of `loginFlipkart`: a browser-closed
error returns the cancelled result without touching the persisted status;
any other error sets status Error with the message and rethrows. -/
def loginFlipkartCatch (errMsg : String) : CatchEffect :=
  if isBrowserClosedMessage errMsg then
    { result := FlowResult.returned "cancelled" "Browser closed by user"
      statusUpdate := none }
  else
    { result := FlowResult.thrown errMsg
      statusUpdate := some (Accounts.AccountStatus.Error, some errMsg) }

/-- Embedding of the catch handler of `loginShopsy`: it unconditionally
sets status Error with the message and rethrows — it has no
browser-closed branch. -/
def loginShopsyCatch (errMsg : String) : CatchEffect :=
  { result := FlowResult.thrown errMsg
    statusUpdate := some (Accounts.AccountStatus.Error, some errMsg) }

end Login

/-- C9 counterexample: on the Shopsy flow, the browser-closed error raised
when the operator closes the window is handled like any other failure —
the persisted status is set to Error with the message and the exception
propagates — so the claim does not hold for every login flow. -/
theorem C9_shopsy_close_counterexample :
    Login.isBrowserClosedMessage "Target page, context or browser has been closed" = true
  ∧ (Login.loginShopsyCatch "Target page, context or browser has been closed").statusUpdate =
      some (Accounts.AccountStatus.Error,
        some "Target page, context or browser has been closed")
  ∧ (Login.loginShopsyCatch "Target page, context or browser has been closed").result =
      Login.FlowResult.thrown "Target page, context or browser has been closed" := by
  decide

/-- C9 (amended): on the Flipkart login flow, a failure whose message
marks the browser as closed externally yields the cancelled result — the
persisted status is not updated and no exception propagates to the
caller. -/
theorem C9_flipkart_close_cancelled (msg : String)
    (h : Login.isBrowserClosedMessage msg = true) :
    Login.loginFlipkartCatch msg =
      { result := Login.FlowResult.returned "cancelled" "Browser closed by user"
        statusUpdate := none } := by
  simp [Login.loginFlipkartCatch, h]

/-- Witness for C9 (amended): the playwright browser-closed message. -/
theorem C9_flipkart_close_cancelled_witness :
    Login.loginFlipkartCatch "Target page, context or browser has been closed" =
      { result := Login.FlowResult.returned "cancelled" "Browser closed by user"
        statusUpdate := none } :=
  C9_flipkart_close_cancelled "Target page, context or browser has been closed" (by decide)

namespace FingerprintGen

/-- Viewport dimensions. -/
structure Viewport where
  width : Nat
  height : Nat
deriving DecidableEq

/-- One playwright device descriptor as consumed by `generateFingerprint`.
`deviceScaleFactorMilli` carries the scale factor in thousandths
(2750 = 2.75) so the embedding stays over integers. -/
structure DeviceDescriptor where
  userAgent : String
  viewport : Viewport
  deviceScaleFactorMilli : Nat
  hasTouch : Bool
  isMobile : Bool
deriving DecidableEq

/-- The Fingerprint record of src/fingerprint.ts. -/
structure Fingerprint where
  userAgent : String
  viewport : Viewport
  deviceScaleFactorMilli : Nat
  locale : String
  timezoneId : String
  hasTouch : Bool
  isMobile : Bool
  javaScriptEnabled : Bool
deriving DecidableEq

/-- DESKTOP_USER_AGENTS from src/fingerprint.ts, verbatim. -/
def DESKTOP_USER_AGENTS : List String :=
  ["Mozilla/5.0 (Windows NT 10.0; Win64; x64) AppleWebKit/537.36 (KHTML, like Gecko) Chrome/120.0.0.0 Safari/537.36",
   "Mozilla/5.0 (Macintosh; Intel Mac OS X 10_15_7) AppleWebKit/537.36 (KHTML, like Gecko) Chrome/120.0.0.0 Safari/537.36",
   "Mozilla/5.0 (Windows NT 10.0; Win64; x64; rv:109.0) Gecko/20100101 Firefox/115.0"]

/-- The playwright registry descriptor the source picks as
`devices['Pixel 5']`.  The descriptor values ship with playwright, outside
this repository; only pool membership and per-entry determinism bear on
the claims. -/
def pixel5 : DeviceDescriptor :=
  { userAgent := "Mozilla/5.0 (Linux; Android 11; Pixel 5) AppleWebKit/537.36 (KHTML, like Gecko) Chrome/120.0.0.0 Mobile Safari/537.36"
    viewport := { width := 393, height := 851 }
    deviceScaleFactorMilli := 2750, hasTouch := true, isMobile := true }

/-- The playwright registry descriptor for `devices['Pixel 7']`. -/
def pixel7 : DeviceDescriptor :=
  { userAgent := "Mozilla/5.0 (Linux; Android 13; Pixel 7) AppleWebKit/537.36 (KHTML, like Gecko) Chrome/120.0.0.0 Mobile Safari/537.36"
    viewport := { width := 412, height := 915 }
    deviceScaleFactorMilli := 2625, hasTouch := true, isMobile := true }

/-- The playwright registry descriptor for
`devices['Samsung Galaxy S20 Ultra']`. -/
def galaxyS20Ultra : DeviceDescriptor :=
  { userAgent := "Mozilla/5.0 (Linux; Android 10; SM-G981B) AppleWebKit/537.36 (KHTML, like Gecko) Chrome/120.0.0.0 Mobile Safari/537.36"
    viewport := { width := 412, height := 915 }
    deviceScaleFactorMilli := 3500, hasTouch := true, isMobile := true }

/-- The playwright registry descriptor for `devices['iPhone 12']`. -/
def iPhone12 : DeviceDescriptor :=
  { userAgent := "Mozilla/5.0 (iPhone; CPU iPhone OS 14_4 like Mac OS X) AppleWebKit/605.1.15 (KHTML, like Gecko) Version/14.0.3 Mobile/15E148 Safari/604.1"
    viewport := { width := 390, height := 664 }
    deviceScaleFactorMilli := 3000, hasTouch := true, isMobile := true }

/-- MOBILE_DEVICES from src/fingerprint.ts: the four playwright device
descriptors, in source order. -/
def MOBILE_DEVICES : List DeviceDescriptor :=
  [pixel5, pixel7, galaxyS20Ultra, iPhone12]

/-- The seed reduction of `generateFingerprint`: the sum of the character
codes of the seed (`seed.charCodeAt(i)` summed over the string). -/
def charSum (seed : String) : Nat :=
  seed.data.foldl (fun acc c => acc + c.toNat) 0

/-- Embedding of `generateFingerprint` from src/fingerprint.ts: reduces
the character-code sum modulo the pool size to pick a device (shopsy:
mobile pool) or a user agent (flipkart: desktop pool); all remaining
fields are fixed regional constants. -/
def generateFingerprint (platform : Accounts.Platform) (seed : String) : Fingerprint :=
  let sum := charSum seed
  match platform with
  | Accounts.Platform.shopsy =>
      let device := MOBILE_DEVICES.getD (sum % MOBILE_DEVICES.length) pixel5
      { userAgent := device.userAgent, viewport := device.viewport
        deviceScaleFactorMilli := device.deviceScaleFactorMilli
        locale := "en-IN", timezoneId := "Asia/Kolkata"
        hasTouch := device.hasTouch, isMobile := device.isMobile
        javaScriptEnabled := true }
  | Accounts.Platform.flipkart =>
      let ua := DESKTOP_USER_AGENTS.getD (sum % DESKTOP_USER_AGENTS.length) ""
      { userAgent := ua, viewport := { width := 1920, height := 1080 }
        deviceScaleFactorMilli := 1000
        locale := "en-IN", timezoneId := "Asia/Kolkata"
        hasTouch := false, isMobile := false, javaScriptEnabled := true }

end FingerprintGen

/-- C7: generateFingerprint is a pure function of (platform, seed) — equal
arguments give equal results — the mobile pool has 4 entries and the
desktop pool 3, and seeds whose character-code sums are congruent modulo
the pool size of the platform receive identical fingerprints. -/
theorem C7_fingerprint_deterministic (s1 s2 t1 t2 : String)
    (hs : FingerprintGen.charSum s1 % FingerprintGen.MOBILE_DEVICES.length =
      FingerprintGen.charSum s2 % FingerprintGen.MOBILE_DEVICES.length)
    (hf : FingerprintGen.charSum t1 % FingerprintGen.DESKTOP_USER_AGENTS.length =
      FingerprintGen.charSum t2 % FingerprintGen.DESKTOP_USER_AGENTS.length) :
    FingerprintGen.MOBILE_DEVICES.length = 4
  ∧ FingerprintGen.DESKTOP_USER_AGENTS.length = 3
  ∧ (∀ p s, FingerprintGen.generateFingerprint p s = FingerprintGen.generateFingerprint p s)
  ∧ FingerprintGen.generateFingerprint Accounts.Platform.shopsy s1 =
      FingerprintGen.generateFingerprint Accounts.Platform.shopsy s2
  ∧ FingerprintGen.generateFingerprint Accounts.Platform.flipkart t1 =
      FingerprintGen.generateFingerprint Accounts.Platform.flipkart t2 := by
  refine ⟨rfl, rfl, fun p s => rfl, ?_, ?_⟩
  · simp only [FingerprintGen.generateFingerprint]
    rw [hs]
  · simp only [FingerprintGen.generateFingerprint]
    rw [hf]

/-- Witness for C7: seeds "a" and "e" collide on shopsy (97 and 101 agree
mod 4), seeds "a" and "d" collide on flipkart (97 and 100 agree mod 3). -/
theorem C7_fingerprint_deterministic_witness :
    FingerprintGen.generateFingerprint Accounts.Platform.shopsy "a" =
      FingerprintGen.generateFingerprint Accounts.Platform.shopsy "e"
  ∧ FingerprintGen.generateFingerprint Accounts.Platform.flipkart "a" =
      FingerprintGen.generateFingerprint Accounts.Platform.flipkart "d" :=
  ⟨(C7_fingerprint_deterministic "a" "e" "a" "d" (by decide) (by decide)).2.2.2.1,
   (C7_fingerprint_deterministic "a" "e" "a" "d" (by decide) (by decide)).2.2.2.2⟩
